import Mathlib

/-!
# Verification of the credential health-monitoring core (rubii-crs)

Shallow embedding of the two scheduler engines of the repository:

* the keepalive monitor (`ClaudeHeartbeatService`, file `src/unnamed/part_000`),
* the key-recovery prober (`DroidApiKeyRecoveryService`,
  file `src/src/services/droidApiKeyRecoveryService.js`).

JavaScript values that matter to the claims are embedded explicitly:
timestamps are integer milliseconds (`Int`); a stored timestamp string is a
`TsField` (absent / unparsable / parsing to a concrete value, mirroring
`Date.parse` which yields `NaN` on junk and round-trips `toISOString` output);
JSON response bodies are a `Json` inductive; `parseInt(s, 10)` is
`parseIntJs` returning `none` for `NaN`.  External collaborators
(`droidAccountService`, `claudeAccountService`, redis, axios) are modelled by
their observable outcomes, passed in as explicit parameters.
-/

namespace Rubii

/-! ## Timestamp fields (strings parsed with `Date.parse`)

A persisted timestamp field is either absent (missing key or the empty
string, both falsy in JS), present but unparsable (`Date.parse` yields
`NaN`), or a valid serialized instant carrying its epoch-milliseconds value
(`Date.parse (new Date(t)).toISOString() = t` for in-range integers). -/

inductive TsField where
  | missing
  | invalid
  | val (t : Int)
deriving DecidableEq, Repr

/-- `entry.f ? Date.parse(entry.f) : NaN` followed by `Number.isFinite`:
`some t` exactly when the field is present and parses to a finite value. -/
def TsField.finiteParse : TsField → Option Int
  | .missing => none
  | .invalid => none
  | .val t => some t

/-! ## JavaScript string primitives

`String.prototype.trim`, `toLowerCase`, `includes` and `split(' ')` are
defined over the character list so that they compute by kernel reduction. -/

/-- JS `s.trim()`: strip whitespace from both ends. -/
def trimJs (s : String) : String :=
  ⟨((s.data.dropWhile Char.isWhitespace).reverse.dropWhile
      Char.isWhitespace).reverse⟩

/-- JS `s.toLowerCase()` (ASCII range, which is all the source compares). -/
def toLowerJs (s : String) : String :=
  ⟨s.data.map Char.toLower⟩

/-- The pattern list starts the string list. -/
def startsWithList : List Char → List Char → Bool
  | [], _ => true
  | _ :: _, [] => false
  | c :: cs, d :: ds => c = d && startsWithList cs ds

/-- Substring search over character lists. -/
def containsList (pat : List Char) : List Char → Bool
  | [] => pat.isEmpty
  | d :: ds => startsWithList pat (d :: ds) || containsList pat ds

/-- JS `s.includes(pat)`. -/
def includesStr (s pat : String) : Bool := containsList pat.data s.data

/-- JS `s.split(' ')`, accumulator form. -/
def splitSpAux : List Char → List Char → List String
  | [], acc => [⟨acc.reverse⟩]
  | c :: cs, acc =>
    if c = ' ' then ⟨acc.reverse⟩ :: splitSpAux cs []
    else splitSpAux cs (c :: acc)

/-- JS `s.split(' ')`. -/
def splitSpaces (s : String) : List String := splitSpAux s.data []

/-! ## JavaScript `parseInt(s, 10)`

Skips leading whitespace, honours an optional sign, then reads the longest
leading digit run; no digits means `NaN`, modelled as `none`. -/

/-- Value of the longest leading run of decimal digits, with the rest. -/
def digitRunVal : List Char → Nat → Bool → Option Nat
  | [], acc, seen => if seen then some acc else none
  | c :: cs, acc, seen =>
    if c.isDigit then digitRunVal cs (acc * 10 + (c.toNat - 48)) true
    else if seen then some acc else none

/-- JavaScript `parseInt(s, 10)`; `none` stands for `NaN`. -/
def parseIntJs (s : String) : Option Int :=
  let cs := (s.data.dropWhile Char.isWhitespace)
  match cs with
  | '-' :: rest => (digitRunVal rest 0 false).map (fun n => -(n : Int))
  | '+' :: rest => (digitRunVal rest 0 false).map (fun n => (n : Int))
  | _ => (digitRunVal cs 0 false).map (fun n => (n : Int))

/-! ## JSON values -/

inductive Json where
  | nullVal
  | boolVal (b : Bool)
  | numVal (n : Int)
  | str (s : String)
  | arr (xs : List Json)
  | obj (fields : List (String × Json))

namespace Json

/-- Property access `v.k` on a JS value: only objects have named fields. -/
def getField : Json → String → Option Json
  | .obj fs, k => (fs.find? (fun p => p.1 = k)).map Prod.snd
  | _, _ => none

/-- JS truthiness of a value standing for `if (v)`. -/
def truthy : Json → Bool
  | .nullVal => false
  | .boolVal b => b
  | .numVal n => n ≠ 0
  | .str s => s ≠ ""
  | .arr _ => true
  | .obj _ => true

/-- Truthiness of `data.k` where a missing field is `undefined` (falsy). -/
def fieldTruthy (v : Json) (k : String) : Bool :=
  match v.getField k with
  | none => false
  | some w => w.truthy

/-- `!data || typeof data !== 'object'`: guard at the top of
`_extractResponseText` (arrays and objects pass, `null` does not). -/
def isObjectLike : Json → Bool
  | .arr _ => true
  | .obj _ => true
  | _ => false

end Json

/-! ## `DroidApiKeyRecoveryService._extractResponseText`

Line-by-line embedding of lines 287-361 of
`src/src/services/droidApiKeyRecoveryService.js`.  The function accumulates
trimmed non-empty strings into `texts` and finally returns `texts[0] || ''`.
Accessing `choice.output_text` on a `null` element of `data.choices` throws
a `TypeError` in JS; the embedding therefore returns `Except Unit String`,
with `.error ()` for that throw. -/

/-- `collect(value)`: push `value.trim()` when `value` is a non-empty string. -/
def collectStr (texts : List String) (v : Json) : List String :=
  match v with
  | .str s => if trimJs s = "" then texts else texts ++ [trimJs s]
  | _ => texts

/-- The `output_text` block (lines 299-303). -/
def collectOutputText (texts : List String) (data : Json) : List String :=
  match data.getField "output_text" with
  | some (.arr xs) => xs.foldl collectStr texts
  | some v => collectStr texts v
  | none => texts

/-- Inner loop over a `content`-style array: strings are collected, objects
contribute their string `text` field (lines 312-318 and 325-331). -/
def collectContentList (texts : List String) (xs : List Json) : List String :=
  xs.foldl
    (fun acc content =>
      match content with
      | .str s => collectStr acc (.str s)
      | _ =>
        if content.truthy then
          match content.getField "text" with
          | some (.str t) => collectStr acc (.str t)
          | _ => acc
        else acc)
    texts

/-- One item of `data.output` (lines 306-321). -/
def collectOutputItem (texts : List String) (item : Json) : List String :=
  if item.truthy then
    let texts :=
      match item.getField "text" with
      | some (.str t) => collectStr texts (.str t)
      | _ => texts
    match item.getField "content" with
    | some (.arr cs) => collectContentList texts cs
    | _ => texts
  else texts

/-- The `data.output` block (lines 305-322). -/
def collectOutput (texts : List String) (data : Json) : List String :=
  match data.getField "output" with
  | some (.arr items) => items.foldl collectOutputItem texts
  | _ => texts

/-- The `data.content` block (lines 324-332). -/
def collectTopContent (texts : List String) (data : Json) : List String :=
  match data.getField "content" with
  | some (.arr cs) => collectContentList texts cs
  | _ => texts

/-- One element of `data.choices` (lines 335-353).  `choice && choice.message`
tolerates a falsy `choice`, but the later `choice.output_text` access throws
on `null`/`undefined`. -/
def collectChoice (acc : Except Unit (List String)) (choice : Json) :
    Except Unit (List String) :=
  match acc with
  | .error e => .error e
  | .ok texts =>
    let texts :=
      if choice.truthy then
        match choice.getField "message" with
        | some msg =>
          if msg.truthy then
            match msg.getField "content" with
            | some (.str s) => collectStr texts (.str s)
            | some (.arr chunks) => collectContentList texts chunks
            | _ => texts
          else texts
        | none => texts
      else texts
    match choice with
    | .nullVal => .error ()
    | _ =>
      match choice.getField "output_text" with
      | some (.arr xs) => .ok (xs.foldl collectStr texts)
      | _ => .ok texts

/-- The `data.choices` block (lines 334-354). -/
def collectChoices (texts : List String) (data : Json) :
    Except Unit (List String) :=
  match data.getField "choices" with
  | some (.arr cs) => cs.foldl collectChoice (.ok texts)
  | _ => .ok texts

/-- The trailing `data.text` block (lines 356-358). -/
def collectTopText (texts : List String) (data : Json) : List String :=
  match data.getField "text" with
  | some (.str s) => collectStr texts (.str s)
  | _ => texts

/-- `_extractResponseText(data)` (lines 287-361): returns `texts[0] || ''`,
or a thrown `TypeError` (`.error ()`) for a `null` element of `data.choices`. -/
def extractResponseText (data : Json) : Except Unit String :=
  if ¬ data.isObjectLike then .ok ""
  else
    let texts : List String := []
    let texts := collectOutputText texts data
    let texts := collectOutput texts data
    let texts := collectTopContent texts data
    match collectChoices texts data with
    | .error e => .error e
    | .ok texts =>
      let texts := collectTopText texts data
      .ok (texts.headD "")

/-! ## Request-timeout clamps (recovery prober)

Constructor lines 23-26 and `_sendProbeRequest` line 216 of
`src/src/services/droidApiKeyRecoveryService.js`. -/

/-- `config.requestTimeout || 600000`: a falsy configured value (absent, `0`,
`NaN`) falls back to 600000.  The configured value is `Option Int`, with
`some 0` behaving like the absent case (both falsy). -/
def configRequestTimeoutBase (c : Option Int) : Int :=
  match c with
  | none => 600000
  | some v => if v = 0 then 600000 else v

/-- `this.requestTimeoutMs = Math.min(Math.max(config.requestTimeout || 600000,
1000), 600000)` (constructor, lines 23-26). -/
def requestTimeoutMs (c : Option Int) : Int :=
  min (max (configRequestTimeoutBase c) 1000) 600000

/-- `timeout: Math.max(Math.min(this.requestTimeoutMs, 60000), 5000)`
(`_sendProbeRequest`, line 216). -/
def probeRequestTimeout (c : Option Int) : Int :=
  max (min (requestTimeoutMs c) 60000) 5000

/-! ## `DroidApiKeyRecoveryService._attemptRecovery`

Embedding of lines 94-174.  A recovery entry is the per-key record handed
back by the registry.  (`getRecoverableApiKeyEntries` lives in
`droidAccountService`, outside this repository's sources; the entry shape —
status ∈ {active, error}, numeric attempt count defaulting to 0, ISO
timestamp strings — follows the spec's RecoveryEntry data model and the
fields this file reads and writes.)  Persistence calls
(`updateApiKeyRecoveryState`) are modelled by the partial update they carry
plus a Boolean telling whether the awaited call succeeded or threw. -/

structure RecoveryCfg where
  probeIntervalMs : Int
  recoveryWindowMs : Int
deriving Repr

structure RecoveryEntry where
  status : String
  recoveryAttempts : Nat
  errorSince : TsField
  recoveryExpiresAt : TsField
  nextRecoveryAt : TsField
  lastRecoveryAttemptAt : TsField
  lastRecoveryResult : String
  errorMessage : String
deriving DecidableEq, Repr

/-- One `updateApiKeyRecoveryState` payload: `none` leaves a field untouched
(partial updates must not clobber unrelated fields). -/
structure RecoveryUpdate where
  status : Option String := none
  errorMessage : Option String := none
  errorSince : Option TsField := none
  recoveryExpiresAt : Option TsField := none
  nextRecoveryAt : Option TsField := none
  recoveryAttempts : Option Nat := none
  lastRecoveryAttemptAt : Option TsField := none
  lastRecoveryResult : Option String := none
deriving DecidableEq, Repr

/-- Merge a partial update into a stored entry. -/
def RecoveryUpdate.applyTo (u : RecoveryUpdate) (e : RecoveryEntry) :
    RecoveryEntry where
  status := u.status.getD e.status
  errorMessage := u.errorMessage.getD e.errorMessage
  errorSince := u.errorSince.getD e.errorSince
  recoveryExpiresAt := u.recoveryExpiresAt.getD e.recoveryExpiresAt
  nextRecoveryAt := u.nextRecoveryAt.getD e.nextRecoveryAt
  recoveryAttempts := u.recoveryAttempts.getD e.recoveryAttempts
  lastRecoveryAttemptAt := u.lastRecoveryAttemptAt.getD e.lastRecoveryAttemptAt
  lastRecoveryResult := u.lastRecoveryResult.getD e.lastRecoveryResult

def applyUpdates (e : RecoveryEntry) (us : List RecoveryUpdate) : RecoveryEntry :=
  us.foldl (fun acc u => u.applyTo acc) e

/-- Lines 102-109: the recovery deadline.  `none` models `NaN` (persisted
value unparsable and `errorSince` present but unparsable), in which case
`new Date(NaN).toISOString()` on line 110 throws a `RangeError`. -/
def recoveryDeadlineMs (cfg : RecoveryCfg) (now : Int) (e : RecoveryEntry) :
    Option Int :=
  match e.recoveryExpiresAt.finiteParse with
  | some parsed => some parsed
  | none =>
    match e.errorSince with
    | .missing => some (now + cfg.recoveryWindowMs)
    | .invalid => none
    | .val t => some (t + cfg.recoveryWindowMs)

/-- Outcome of `_sendProbeRequest` (lines 195-233): a resolved response body
(status < 400), or a throw (HTTP ≥ 400 turned into an error on line 226-229,
or a network/timeout error from axios). -/
inductive ProbeResult where
  | ok (data : Json)
  | fail

/-- Lines 112-123: the pre-probe persisted update. -/
def pendingUpdate (cfg : RecoveryCfg) (now : Int) (e : RecoveryEntry)
    (deadline : Int) : RecoveryUpdate where
  lastRecoveryAttemptAt := some (.val now)
  recoveryAttempts := some (e.recoveryAttempts + 1)
  nextRecoveryAt := some (.val (now + cfg.probeIntervalMs))
  errorSince := match e.errorSince with
    | .missing => some (.val now)
    | _ => none
  recoveryExpiresAt := match e.recoveryExpiresAt with
    | .missing => some (.val deadline)
    | _ => none

/-- Lines 136-145: the transition to `active` on a successful probe. -/
def successUpdate (now : Int) : RecoveryUpdate where
  status := some "active"
  errorMessage := some ""
  errorSince := some .missing
  recoveryExpiresAt := some .missing
  nextRecoveryAt := some .missing
  recoveryAttempts := some 0
  lastRecoveryAttemptAt := some (.val now)
  lastRecoveryResult := some ("Recovered at " ++ toString now)

/-- Lines 155-159: the inconclusive (empty response) update. -/
def inconclusiveUpdate (cfg : RecoveryCfg) (now deadline : Int) :
    RecoveryUpdate where
  lastRecoveryResult := some ("Empty response at " ++ toString now)
  nextRecoveryAt := some (.val (now + cfg.probeIntervalMs))
  recoveryExpiresAt := some (.val deadline)

/-- Lines 165-169: the failure update written by the catch block. -/
def failedUpdate (cfg : RecoveryCfg) (now deadline : Int) : RecoveryUpdate where
  lastRecoveryResult := some ("Failed at " ++ toString now)
  nextRecoveryAt := some (.val (now + cfg.probeIntervalMs))
  recoveryExpiresAt := some (.val deadline)

/-- `_attemptRecovery(target)` (lines 94-174), returning the ordered list of
partial updates it persisted, or `.error ()` when the call itself throws
(aborting the cycle's remaining candidates).  `preOk` is the awaited
outcome of the line-125 persistence call; `sOk`, `iOk` of the success /
inconclusive updates inside the try (their throw is handled by the catch,
which then writes the failure update); `cOk` of the catch block's own
persistence call, whose throw propagates.  `_reactivateAccountIfNeeded`
(lines 176-193) catches every error internally, so it never contributes a
throw. -/
def attemptRecovery (cfg : RecoveryCfg) (now : Int) (e : RecoveryEntry)
    (pr : ProbeResult) (preOk sOk iOk cOk : Bool) :
    Except Unit (List RecoveryUpdate) :=
  match recoveryDeadlineMs cfg now e with
  | none => .error ()
  | some deadline =>
    match preOk with
    | false => .error ()
    | true =>
      let pending := [pendingUpdate cfg now e deadline]
      let catchPath : Except Unit (List RecoveryUpdate) :=
        match cOk with
        | true => .ok (pending ++ [failedUpdate cfg now deadline])
        | false => .error ()
      match pr with
      | .fail => catchPath
      | .ok data =>
        match extractResponseText data with
        | .error _ => catchPath
        | .ok s =>
          if 0 < (trimJs s).length then
            match sOk with
            | true => .ok (pending ++ [successUpdate now])
            | false => catchPath
          else
            match iOk with
            | true => .ok (pending ++ [inconclusiveUpdate cfg now deadline])
            | false => catchPath

/-- Final stored entry after an attempt whose persistence all succeeded. -/
def attemptRecoveryFinal (cfg : RecoveryCfg) (now : Int) (e : RecoveryEntry)
    (pr : ProbeResult) : Except Unit RecoveryEntry :=
  (attemptRecovery cfg now e pr true true true true).map (applyUpdates e)

/-- The probe yields a usable text fragment: the line-135 condition
`typeof extractedText === 'string' && extractedText.trim().length > 0`. -/
def probeYieldsText : ProbeResult → Bool
  | .fail => false
  | .ok data =>
    match extractResponseText data with
    | .error _ => false
    | .ok s => 0 < (trimJs s).length

/-! ## `ClaudeHeartbeatService` — account evaluation

Embedding of `_evaluateAccountForHeartbeat` and its helper predicates
(lines 134-191 and 292-369 of `src/unnamed/part_000`).  Redis hash fields
are strings; an absent field is `none` and the empty string is falsy, so JS
truthiness of a field is `jsTruthyStr`. -/

/-- JS truthiness of a possibly-absent string field. -/
def jsTruthyStr : Option String → Bool
  | none => false
  | some s => s ≠ ""

/-- `a || dflt` on a string field. -/
def jsOrStr (a : Option String) (dflt : String) : String :=
  match a with
  | none => dflt
  | some s => if s = "" then dflt else s


/-- The `account.scopes` field: absent, a string, an array, or some other
truthy value (which the source maps to the empty scope list). -/
inductive ScopesField where
  | missing
  | strVal (s : String)
  | arrVal (xs : List String)
  | other
deriving DecidableEq, Repr

/-- The parsed shape of `subscriptionInfo` that `_isClaudeMaxAccount`
inspects. -/
structure SubInfo where
  accountType : Option String
  hasClaudeMax : Option Bool
deriving DecidableEq, Repr

/-- The raw `subscriptionInfo` field: absent/empty (falsy), already an
object, a non-empty string whose `JSON.parse` succeeds with the carried
shape, or a non-empty string whose `JSON.parse` throws. -/
inductive SubInfoField where
  | missing
  | objVal (i : SubInfo)
  | strParsed (i : SubInfo)
  | strBad
deriving DecidableEq, Repr

structure HbAccount where
  id : String
  platform : Option String
  accountType : Option String
  scopes : ScopesField
  isActive : Option String
  schedulable : Option String
  fiveHourAutoStopped : Option String
  rateLimitAutoStopped : Option String
  rateLimitStatus : Option String
  rateLimitedAt : Option String
  status : Option String
  subscriptionInfo : SubInfoField
  claudeUsageUpdatedAt : TsField
deriving DecidableEq, Repr

/-- `_isClaudePlatform` (lines 292-294). -/
def isClaudePlatform (acc : HbAccount) : Bool :=
  includesStr (toLowerJs (jsOrStr acc.platform (jsOrStr acc.accountType ""))) "claude"

/-- `_isOAuthAccount` (lines 296-308). -/
def isOAuthAccount (sc : ScopesField) : Bool :=
  match sc with
  | .missing => false
  | .strVal s =>
    if s = "" then false
    else
      let scopes := (splitSpaces s).map trimJs
      scopes.contains "user:profile" && scopes.contains "user:inference"
  | .arrVal xs => xs.contains "user:profile" && xs.contains "user:inference"
  | .other => false

/-- `_isAccountHealthy` (lines 310-336). -/
def isAccountHealthy (acc : HbAccount) : Bool :=
  if acc.isActive = some "false" then false
  else if acc.schedulable = some "false" then false
  else if acc.fiveHourAutoStopped = some "true" then false
  else if acc.rateLimitAutoStopped = some "true" then false
  else if acc.rateLimitStatus = some "limited" then false
  else if jsTruthyStr acc.rateLimitedAt then false
  else if jsTruthyStr acc.status && ¬ (acc.status = some "active") then false
  else true

/-- `_parseSubscriptionInfo` (lines 352-369): tolerant, never throws. -/
def parseSubscriptionInfo : SubInfoField → Option SubInfo
  | .missing => none
  | .objVal i => some i
  | .strParsed i => some i
  | .strBad => none

/-- `_isClaudeMaxAccount` (lines 338-350). -/
def isClaudeMaxAccount (f : SubInfoField) : Bool :=
  match parseSubscriptionInfo f with
  | none => false
  | some info =>
    if info.accountType = some "claude_max" then true
    else if info.hasClaudeMax = some true then true
    else false

/-- `buildClaudeUsageSnapshot`'s result, reduced to the one field the
monitor reads: `snapshot?.fiveHour?.remainingSeconds` when it is a number. -/
structure UsageSnap where
  fiveHourRemainingSeconds : Option Int
deriving DecidableEq, Repr

def snapRemaining (s : Option UsageSnap) : Option Int :=
  s.bind UsageSnap.fiveHourRemainingSeconds

/-- `typeof remainingSeconds === 'number' && remainingSeconds > 0`. -/
def hasCountdown (s : Option UsageSnap) : Bool :=
  match snapRemaining s with
  | some r => 0 < r
  | none => false

/-- Inputs of one `_evaluateAccountForHeartbeat` call.  `snapshot0` is
`buildClaudeUsageSnapshot(account)`; `refreshResult` the value of
`_refreshUsageSnapshot` when the refresh branch runs (`claudeAccountService`
and redis are external collaborators, modelled by their returned data);
`usageRefreshMaxAgeMs` the already-`parseInt`ed config field (`none` for
`NaN`/absent); `lastHeartbeatAt` the `recentHeartbeats` map lookup. -/
structure HbEvalEnv where
  account : HbAccount
  snapshot0 : Option UsageSnap
  lastHeartbeatAt : Option Int
  refreshResult : Option (HbAccount × Option UsageSnap)
  usageRefreshMaxAgeMs : Option Int
  cooldownMs : Int
  now : Int
deriving DecidableEq, Repr

/-- `parseInt(heartbeatConfig.usageRefreshMaxAgeMs, 10) || 120000`
(lines 161-162). -/
def usageFreshnessMs (c : Option Int) : Int :=
  match c with
  | none => 120000
  | some v => if v = 0 then 120000 else v

/-- Lines 163-169: the staleness test.  `updatedAtMs` is `Date.parse` of the
stored string, `0` when the field is absent, `NaN` when unparsable. -/
def usageIsStale (env : HbEvalEnv) : Bool :=
  let ufm := usageFreshnessMs env.usageRefreshMaxAgeMs
  0 < ufm &&
    (match env.account.claudeUsageUpdatedAt with
     | .missing => true
     | .invalid => true
     | .val t => t = 0 || ufm < env.now - t)

/-- Line 154: `lastHeartbeatAt && nowMs - lastHeartbeatAt < cooldownMs`
(a stored `0` is falsy). -/
def cooldownActive (env : HbEvalEnv) : Bool :=
  match env.lastHeartbeatAt with
  | none => false
  | some t => t ≠ 0 && env.now - t < env.cooldownMs

/-- `_evaluateAccountForHeartbeat`'s observable outcome, instrumented with
the source's local variables: the post-refresh `snapshot` (lines 158-184)
and the number of `_refreshUsageSnapshot` round-trips performed. -/
structure HbEvalOut where
  shouldHeartbeat : Bool
  accountUsed : HbAccount
  currentSnapshot : Option UsageSnap
  refreshCount : Nat
deriving DecidableEq, Repr

/-- Lines 171-180: the at-most-one refresh round-trip, yielding the
`accountData`/`snapshot` pair in force afterwards plus the number of
`_refreshUsageSnapshot` calls made (a failed refresh keeps the old data). -/
def refreshState (env : HbEvalEnv) : HbAccount × Option UsageSnap × Nat :=
  if ¬ hasCountdown env.snapshot0 && usageIsStale env then
    match env.refreshResult with
    | some refreshed => (refreshed.1, refreshed.2, 1)
    | none => (env.account, env.snapshot0, 1)
  else (env.account, env.snapshot0, 0)

/-- `_evaluateAccountForHeartbeat` (lines 134-191). -/
def evaluateAccountForHeartbeat (env : HbEvalEnv) : HbEvalOut :=
  if ¬ isClaudePlatform env.account then ⟨false, env.account, none, 0⟩
  else if ¬ isOAuthAccount env.account.scopes then ⟨false, env.account, none, 0⟩
  else if ¬ isAccountHealthy env.account then ⟨false, env.account, none, 0⟩
  else if ¬ isClaudeMaxAccount env.account.subscriptionInfo then
    ⟨false, env.account, none, 0⟩
  else if cooldownActive env then ⟨false, env.account, none, 0⟩
  else if hasCountdown (refreshState env).2.1 then
    ⟨false, (refreshState env).1, (refreshState env).2.1, (refreshState env).2.2⟩
  else
    ⟨true, (refreshState env).1, (refreshState env).2.1, (refreshState env).2.2⟩

/-! ## `ClaudeHeartbeatService._sendHeartbeatForAccount`

Embedding of lines 193-290.  The whole body is a try/catch/finally whose
`finally` records the in-memory cooldown timestamp.  Collaborator outcomes
are explicit: the bearer token (`getValidAccessToken`), whether
`config.claude.apiUrl` is configured (its absence throws on line 208,
handled by the catch), whether `ProxyHelper.createProxyAgent` throws, the
probe outcome, and whether each remediation call resolves. -/

inductive HbProbe where
  | success
  | httpFail (status : Nat) (resetHeader : Option String)
  | netFail
deriving DecidableEq, Repr

structure HbSendEnv where
  token : Option String
  apiUrlConfigured : Bool
  proxyOk : Bool
  probe : HbProbe
  markRateLimitedOk : Bool
  markOverloadedOk : Bool
deriving DecidableEq, Repr

structure HbSendResult where
  probeSent : Bool
  usageRefreshTriggered : Bool
  rateLimitedCall : Option (Option Int)
  overloadedCall : Bool
  cooldownSet : Bool
  threw : Bool
deriving DecidableEq, Repr

/-- Lines 256-257 and 278-283: the reset argument handed to
`markAccountRateLimited`: `parseInt(resetHeader, 10)` when a truthy header
is present, passed through only when `Number.isFinite` holds, else `null`. -/
def resetArg (h : Option String) : Option Int :=
  match h with
  | none => none
  | some s => if s = "" then none else parseIntJs s

/-- `_sendHeartbeatForAccount` (lines 193-290).  `threw = true` exactly when
the function itself rejects (only a remediation call inside the catch can
do that); the `finally` sets the cooldown record first in every case. -/
def sendHeartbeatForAccount (env : HbSendEnv) : HbSendResult :=
  if ¬ jsTruthyStr env.token then
    { probeSent := false, usageRefreshTriggered := false, rateLimitedCall := none
      overloadedCall := false, cooldownSet := true, threw := false }
  else if ¬ env.proxyOk ∨ ¬ env.apiUrlConfigured then
    { probeSent := false, usageRefreshTriggered := false, rateLimitedCall := none
      overloadedCall := false, cooldownSet := true, threw := false }
  else
    match env.probe with
    | .success =>
      { probeSent := true, usageRefreshTriggered := true, rateLimitedCall := none
        overloadedCall := false, cooldownSet := true, threw := false }
    | .netFail =>
      { probeSent := true, usageRefreshTriggered := false, rateLimitedCall := none
        overloadedCall := false, cooldownSet := true, threw := false }
    | .httpFail st h =>
      if st = 429 then
        { probeSent := true, usageRefreshTriggered := false
          rateLimitedCall := some (resetArg h), overloadedCall := false
          cooldownSet := true, threw := ¬ env.markRateLimitedOk }
      else if st = 529 then
        { probeSent := true, usageRefreshTriggered := false, rateLimitedCall := none
          overloadedCall := true, cooldownSet := true, threw := ¬ env.markOverloadedOk }
      else
        { probeSent := true, usageRefreshTriggered := false, rateLimitedCall := none
          overloadedCall := false, cooldownSet := true, threw := false }

/-! ## The scheduler tick

Both monitors share one `_tick` shape (`src/unnamed/part_000` lines 53-66,
`droidApiKeyRecoveryService.js` lines 64-92): test the in-progress guard and
return if set; otherwise set it, run the cycle body inside try/catch, and
clear it in `finally`.  Within a started cycle the candidates are processed
strictly sequentially, and an uncaught throw from one candidate ends the
loop (the cycle-level catch absorbs it). -/

/-- Number of candidates actually invoked: the loop stops after the first
candidate whose processing throws. -/
def runTargets : List (Except Unit Unit) → Nat
  | [] => 0
  | r :: rs =>
    match r with
    | .error _ => 1
    | .ok _ => 1 + runTargets rs

structure TickOutcome where
  cycleStarted : Bool
  invoked : Nat
  guardAfter : Bool
deriving DecidableEq, Repr

/-- One `_tick` invocation: skipped outright when the guard is set, else the
guard is set, the body runs (any throw caught by the cycle-level catch), and
the `finally` clears the guard. -/
def tickRun (guardBefore : Bool) (targets : List (Except Unit Unit)) :
    TickOutcome :=
  if guardBefore then ⟨false, 0, true⟩
  else ⟨true, runTargets targets, false⟩

/-! ## Single-flight interleaving protocol

Fine-grained model of the guard for overlapping timer firings.  The
guard test and set (`if (this.isTickRunning) return; this.isTickRunning =
true`) execute synchronously before the body's first `await`, so they form
one atomic step of the event loop; the body then runs across many awaited
steps; `finally` clears the guard in one step, whether or not the body
threw. -/

inductive TickPhase where
  | start
  | running (stepsLeft : Nat) (throws : Bool)
  | done (ranCycle : Bool)
deriving DecidableEq, Repr

def TickPhase.isRunning : TickPhase → Bool
  | .running _ _ => true
  | _ => false

/-- Shared guard flag plus the phases of two timer firings. -/
structure MonitorState where
  guard : Bool
  p1 : TickPhase
  p2 : TickPhase
deriving DecidableEq, Repr

/-- One atomic step of a single `_tick` invocation against the guard:
`skip` is the immediate return when the guard is set, `enter` the atomic
test-and-set that starts a cycle of `k` body steps, `work` one awaited body
step, `finish` the `finally` clearing the guard — whether or not the body
threw (`thr`). -/
inductive PhaseStep : Bool → TickPhase → Bool → TickPhase → Prop where
  | skip : PhaseStep true .start true (.done false)
  | enter (k : Nat) (thr : Bool) :
      PhaseStep false .start true (.running k thr)
  | work (k : Nat) (thr : Bool) :
      PhaseStep true (.running (k + 1) thr) true (.running k thr)
  | finish (thr : Bool) :
      PhaseStep true (.running 0 thr) false (.done true)

/-- Interleaving of two tick invocations sharing the guard. -/
inductive SysStep : MonitorState → MonitorState → Prop where
  | fire1 {s : MonitorState} {g : Bool} {p : TickPhase} :
      PhaseStep s.guard s.p1 g p → SysStep s ⟨g, p, s.p2⟩
  | fire2 {s : MonitorState} {g : Bool} {p : TickPhase} :
      PhaseStep s.guard s.p2 g p → SysStep s ⟨g, s.p1, p⟩

/-- Guard clear, both firings pending. -/
def initState : MonitorState := ⟨false, .start, .start⟩

def Reachable (s : MonitorState) : Prop :=
  Relation.ReflTransGen SysStep initState s

/-- The inductive invariant: a running firing holds the guard, and at most
one firing is running. -/
def GuardInv (s : MonitorState) : Prop :=
  (s.p1.isRunning = true → s.guard = true) ∧
  (s.p2.isRunning = true → s.guard = true) ∧
  ¬ (s.p1.isRunning = true ∧ s.p2.isRunning = true)

/-!
# Theorems
-/

/-- C10: for every configured `requestTimeout`, the constructor clamps the
stored `requestTimeoutMs` into [1000, 600000] and the probe request builder
clamps the effective timeout into [5000, 60000]. -/
theorem probe_timeout_within_bounds :
    ∀ c : Option Int,
      (1000 ≤ requestTimeoutMs c ∧ requestTimeoutMs c ≤ 600000) ∧
      5000 ≤ probeRequestTimeout c ∧ probeRequestTimeout c ≤ 60000 := by
  intro c
  unfold probeRequestTimeout requestTimeoutMs configRequestTimeoutBase
  rcases c with _ | v
  · norm_num
  · dsimp only
    split <;> simp [min_def, max_def] <;> split_ifs <;> omega

/-- C4: the keepalive probe records the in-memory cooldown timestamp on
every exit path of `_sendHeartbeatForAccount` (success, HTTP failure,
network error, missing token, unconfigured endpoint, failing remediation
call — the `finally` always runs), and a credential with a cooldown record
inside the window is skipped by the next evaluation. -/
theorem heartbeat_cooldown_recorded_on_every_exit :
    (∀ env : HbSendEnv, (sendHeartbeatForAccount env).cooldownSet = true) ∧
    (∀ env : HbEvalEnv, ∀ t : Int, env.lastHeartbeatAt = some t → t ≠ 0 →
      env.now - t < env.cooldownMs →
      (evaluateAccountForHeartbeat env).shouldHeartbeat = false) := by
  constructor
  · intro env
    unfold sendHeartbeatForAccount
    split_ifs <;> first
      | rfl
      | (rcases env.probe with _ | ⟨st, h⟩ | _ <;> simp only <;> split_ifs <;> rfl)
  · intro env t ht ht0 hcd
    have hact : cooldownActive env = true := by
      unfold cooldownActive
      rw [ht]
      simp only [decide_eq_true_eq, Bool.and_eq_true, decide_eq_true_iff]
      exact ⟨by simpa using ht0, by simpa using hcd⟩
    unfold evaluateAccountForHeartbeat
    simp only [hact, if_true]
    split_ifs <;> rfl

/-- A healthy premium OAuth account used to instantiate the evaluation
theorems: claude platform, both scope markers, no impairment flags,
`claude_max` tier, usage snapshot written at epoch 0. -/
def sampleAccount : HbAccount :=
  ⟨"acc-1", some "claude-oauth", none, .strVal "user:profile user:inference",
   none, none, none, none, none, none, some "active",
   .objVal ⟨some "claude_max", none⟩, .val 0⟩

/-- Witness for C4: a network-failing probe still records the cooldown, and
an account probed 50 ms ago with a 600000 ms cooldown window is skipped. -/
theorem heartbeat_cooldown_recorded_witness :
    (sendHeartbeatForAccount
        ⟨some "tok", true, true, .netFail, true, true⟩).cooldownSet = true ∧
    (evaluateAccountForHeartbeat
        ⟨sampleAccount, none, some 50, none, none, 600000, 100⟩).shouldHeartbeat
      = false :=
  ⟨heartbeat_cooldown_recorded_on_every_exit.1 _,
   heartbeat_cooldown_recorded_on_every_exit.2
     ⟨sampleAccount, none, some 50, none, none, 600000, 100⟩ 50 rfl
     (by decide) (by decide)⟩

/-- C5 counterexample: when the token-management collaborator returns no
bearer token, the candidate is aborted with no probe — but the cooldown
record for the credential IS modified (the `finally` on lines 287-289 runs
on the early `return` of line 200), contradicting the claim that no state
associated with the credential, the cooldown record included, is touched. -/
theorem heartbeat_no_token_cex :
    (sendHeartbeatForAccount ⟨none, true, true, .success, true, true⟩).probeSent
        = false ∧
    (sendHeartbeatForAccount ⟨none, true, true, .success, true, true⟩).cooldownSet
        = true :=
  ⟨rfl, rfl⟩

/-- C5 as amended: with no valid bearer token the candidate is aborted for
the cycle — no probe is sent, no usage refresh is triggered, no remediation
call is made, nothing is thrown — but the in-memory cooldown timestamp IS
recorded by the unconditional `finally`. -/
theorem heartbeat_no_token_aborts_candidate :
    ∀ env : HbSendEnv, jsTruthyStr env.token = false →
      sendHeartbeatForAccount env =
        { probeSent := false, usageRefreshTriggered := false
          rateLimitedCall := none, overloadedCall := false
          cooldownSet := true, threw := false } := by
  intro env h
  unfold sendHeartbeatForAccount
  simp [h]

/-- Witness for the amended C5 at a concrete environment. -/
theorem heartbeat_no_token_aborts_candidate_witness :
    sendHeartbeatForAccount ⟨none, true, true, .success, true, true⟩ =
      { probeSent := false, usageRefreshTriggered := false
        rateLimitedCall := none, overloadedCall := false
        cooldownSet := true, threw := false } :=
  heartbeat_no_token_aborts_candidate ⟨none, true, true, .success, true, true⟩ rfl

/-- C9: a probe failing with HTTP 429 marks the credential rate-limited,
passing the header value parsed with `parseInt` when finite and `null`
otherwise; HTTP 529 marks it overloaded instead; the cooldown timestamp is
recorded in either case.  The header `"1700000000"` parses to the reset
epoch 1700000000. -/
theorem heartbeat_rate_limit_remediation :
    (∀ env : HbSendEnv, ∀ st : Nat, ∀ h : Option String,
      jsTruthyStr env.token = true → env.apiUrlConfigured = true →
      env.proxyOk = true → env.probe = .httpFail st h →
      (st = 429 →
        (sendHeartbeatForAccount env).rateLimitedCall = some (resetArg h) ∧
        (sendHeartbeatForAccount env).overloadedCall = false) ∧
      (st = 529 →
        (sendHeartbeatForAccount env).overloadedCall = true ∧
        (sendHeartbeatForAccount env).rateLimitedCall = none) ∧
      (sendHeartbeatForAccount env).cooldownSet = true) ∧
    resetArg (some "1700000000") = some 1700000000 := by
  constructor
  · intro env st h htok hapi hproxy hpr
    unfold sendHeartbeatForAccount
    simp only [htok, hapi, hproxy, hpr]
    refine ⟨fun h429 => ?_, fun h529 => ?_, ?_⟩
    · simp [h429]
    · subst h529
      simp
    · split_ifs <;> rfl
  · rfl

/-- Witness for C9: status 429 with reset header `"1700000000"` yields a
`markAccountRateLimited` call with reset epoch 1700000000, cooldown
recorded. -/
theorem heartbeat_rate_limit_remediation_witness :
    (sendHeartbeatForAccount
        ⟨some "tok", true, true, .httpFail 429 (some "1700000000"), true,
         true⟩).rateLimitedCall = some (some 1700000000) ∧
    (sendHeartbeatForAccount
        ⟨some "tok", true, true, .httpFail 429 (some "1700000000"), true,
         true⟩).cooldownSet = true := by
  have h := heartbeat_rate_limit_remediation
  have h1 := (h.1 ⟨some "tok", true, true, .httpFail 429 (some "1700000000"),
      true, true⟩ 429 (some "1700000000") rfl rfl rfl rfl)
  exact ⟨((h1.1 rfl).1).trans (by rw [h.2]), h1.2.2⟩

/-- C8: in every keepalive evaluation at most one usage refresh round-trip
is performed, and whenever the usage snapshot in force after the optional
refresh has a positive `remainingSeconds`, the credential is not probed in
this cycle. -/
theorem evaluate_shape (env : HbEvalEnv) :
    evaluateAccountForHeartbeat env = ⟨false, env.account, none, 0⟩ ∨
    evaluateAccountForHeartbeat env =
      (if hasCountdown (refreshState env).2.1 then
        ⟨false, (refreshState env).1, (refreshState env).2.1,
         (refreshState env).2.2⟩
      else
        ⟨true, (refreshState env).1, (refreshState env).2.1,
         (refreshState env).2.2⟩) := by
  unfold evaluateAccountForHeartbeat
  split_ifs <;> simp

theorem refreshState_count (env : HbEvalEnv) : (refreshState env).2.2 ≤ 1 := by
  unfold refreshState
  split
  · rcases env.refreshResult with _ | ⟨a, sn⟩ <;> simp
  · simp

/-- C8: in every keepalive evaluation at most one usage refresh round-trip
is performed, and whenever the usage snapshot in force after the optional
refresh has a positive `remainingSeconds`, the credential is not probed in
this cycle. -/
theorem keepalive_skips_positive_countdown :
    ∀ env : HbEvalEnv,
      (evaluateAccountForHeartbeat env).refreshCount ≤ 1 ∧
      ∀ r : Int,
        snapRemaining (evaluateAccountForHeartbeat env).currentSnapshot = some r →
        0 < r → (evaluateAccountForHeartbeat env).shouldHeartbeat = false := by
  intro env
  rcases evaluate_shape env with h | h
  · rw [h]
    exact ⟨by norm_num, by intro r hr; simp [snapRemaining] at hr⟩
  · by_cases hc : hasCountdown (refreshState env).2.1 = true
    · rw [if_pos hc] at h
      rw [h]
      exact ⟨refreshState_count env, fun r _ _ => rfl⟩
    · rw [if_neg hc] at h
      rw [h]
      refine ⟨refreshState_count env, fun r hr hpos => absurd ?_ hc⟩
      unfold hasCountdown
      rw [show snapRemaining (refreshState env).2.1 = some r from hr]
      simpa using hpos

/-- Witness for C8: a premium account whose cached snapshot already carries
`remainingSeconds = 5` is not probed. -/
theorem keepalive_skips_positive_countdown_witness :
    (evaluateAccountForHeartbeat
        ⟨sampleAccount, some ⟨some 5⟩, none, none, none, 600000,
         100⟩).shouldHeartbeat = false :=
  (keepalive_skips_positive_countdown
    ⟨sampleAccount, some ⟨some 5⟩, none, none, none, 600000, 100⟩).2 5
    (by decide) (by decide)

/-- The success response carried no usable fragment: the complement of the
line-135 test inside a resolved probe (`_extractResponseText` returned a
string whose trim is empty). -/
def probeInconclusive : ProbeResult → Bool
  | .fail => false
  | .ok data =>
    match extractResponseText data with
    | .error _ => false
    | .ok s => (trimJs s).length = 0

/-- Case analysis of a non-throwing `_attemptRecovery` run (all persistence
calls succeed): the persisted update sequence is the pending update followed
by exactly one of the success / inconclusive / failure updates. -/
theorem attemptRecovery_ok_cases (cfg : RecoveryCfg) (now : Int)
    (e : RecoveryEntry) (pr : ProbeResult) (us : List RecoveryUpdate)
    (h : attemptRecovery cfg now e pr true true true true = .ok us) :
    ∃ d, recoveryDeadlineMs cfg now e = some d ∧
      ((probeYieldsText pr = true ∧
          us = [pendingUpdate cfg now e d, successUpdate now]) ∨
       (probeYieldsText pr = false ∧ probeInconclusive pr = true ∧
          us = [pendingUpdate cfg now e d, inconclusiveUpdate cfg now d]) ∨
       (probeYieldsText pr = false ∧ probeInconclusive pr = false ∧
          us = [pendingUpdate cfg now e d, failedUpdate cfg now d])) := by
  unfold attemptRecovery at h
  rcases hd : recoveryDeadlineMs cfg now e with _ | d
  · rw [hd] at h
    exact absurd h (by simp)
  · rw [hd] at h
    dsimp only at h
    refine ⟨d, rfl, ?_⟩
    rcases pr with data | _
    · dsimp only at h
      rcases hx : extractResponseText data with u | s
      · rw [hx] at h
        dsimp only at h
        injection h with h'
        exact Or.inr (Or.inr ⟨by simp [probeYieldsText, hx],
          by simp [probeInconclusive, hx], h'.symm⟩)
      · rw [hx] at h
        dsimp only at h
        by_cases hs : 0 < (trimJs s).length
        · rw [if_pos hs] at h
          injection h with h'
          exact Or.inl ⟨by simp [probeYieldsText, hx, hs], h'.symm⟩
        · rw [if_neg hs] at h
          injection h with h'
          refine Or.inr (Or.inl ⟨by simp [probeYieldsText, hx]; omega,
            by simp [probeInconclusive, hx]; omega, h'.symm⟩)
    · injection h with h'
      exact Or.inr (Or.inr ⟨rfl, rfl, h'.symm⟩)

/-- C2: every selected attempt first persists attempt count (previous,
defaulting to 0) + 1 with the status untouched; the stored count ends at
exactly 0 precisely when the probe response yields a non-empty extracted
fragment — the transition to `active` — and otherwise ends at previous + 1
with the status unchanged, hence never below its previous value while the
entry stays in `error`. -/
theorem recovery_attempts_monotone_reset :
    ∀ (cfg : RecoveryCfg) (now : Int) (e : RecoveryEntry) (pr : ProbeResult)
      (us : List RecoveryUpdate),
      attemptRecovery cfg now e pr true true true true = .ok us →
      us.head?.bind RecoveryUpdate.recoveryAttempts
          = some (e.recoveryAttempts + 1) ∧
      us.head?.bind RecoveryUpdate.status = none ∧
      (((applyUpdates e us).recoveryAttempts = 0 ∧
          (applyUpdates e us).status = "active") ↔ probeYieldsText pr = true) ∧
      (probeYieldsText pr = false →
        (applyUpdates e us).recoveryAttempts = e.recoveryAttempts + 1 ∧
        (applyUpdates e us).status = e.status ∧
        e.recoveryAttempts ≤ (applyUpdates e us).recoveryAttempts) := by
  intro cfg now e pr us h
  obtain ⟨d, hd, hc⟩ := attemptRecovery_ok_cases cfg now e pr us h
  rcases hc with ⟨hy, rfl⟩ | ⟨hy, hi, rfl⟩ | ⟨hy, hi, rfl⟩
  · refine ⟨by simp [pendingUpdate], by simp [pendingUpdate], ?_, ?_⟩
    · simp [applyUpdates, RecoveryUpdate.applyTo, pendingUpdate, successUpdate,
        hy]
    · intro hfalse
      rw [hy] at hfalse
      cases hfalse
  · refine ⟨by simp [pendingUpdate], by simp [pendingUpdate], ?_, ?_⟩
    · rw [hy]
      simp [applyUpdates, RecoveryUpdate.applyTo, pendingUpdate,
        inconclusiveUpdate]
    · intro _
      refine ⟨?_, ?_, ?_⟩ <;>
        simp [applyUpdates, RecoveryUpdate.applyTo, pendingUpdate,
          inconclusiveUpdate]
  · refine ⟨by simp [pendingUpdate], by simp [pendingUpdate], ?_, ?_⟩
    · rw [hy]
      simp [applyUpdates, RecoveryUpdate.applyTo, pendingUpdate, failedUpdate]
    · intro _
      refine ⟨?_, ?_, ?_⟩ <;>
        simp [applyUpdates, RecoveryUpdate.applyTo, pendingUpdate, failedUpdate]

/-- Concrete recovery fixture: 30-minute-probe / 24-hour-window
configuration. -/
def cexCfg : RecoveryCfg := ⟨120000, 86400000⟩

/-- Concrete recovery entry: status `error` since epoch 0, two prior
attempts, no persisted deadline. -/
def cexEntry : RecoveryEntry :=
  ⟨"error", 2, .val 0, .missing, .missing, .missing, "", ""⟩

/-- Witness for C2: a failed probe on `cexEntry` persists attempts 2 + 1 = 3
and leaves the status at `error`. -/
theorem recovery_attempts_monotone_reset_witness :
    (applyUpdates cexEntry
        [pendingUpdate cexCfg 1000 cexEntry 86400000,
         failedUpdate cexCfg 1000 86400000]).recoveryAttempts
      = cexEntry.recoveryAttempts + 1 ∧
    (applyUpdates cexEntry
        [pendingUpdate cexCfg 1000 cexEntry 86400000,
         failedUpdate cexCfg 1000 86400000]).status = cexEntry.status :=
  ⟨((recovery_attempts_monotone_reset cexCfg 1000 cexEntry .fail _ rfl).2.2.2
      rfl).1,
   ((recovery_attempts_monotone_reset cexCfg 1000 cexEntry .fail _ rfl).2.2.2
      rfl).2.1⟩

/-- C3: for every non-throwing failed or inconclusive attempt, the deadline
persisted back is exactly the one computed on entry — the persisted
`recoveryExpiresAt` when it parses to a finite timestamp, else
`errorSince + recoveryWindowMs` — and the updated entry re-derives that very
same deadline at any later time (idempotence: the deadline is stable across
subsequent failed/inconclusive attempts while status stays `error`). -/
theorem recovery_deadline_idempotent :
    ∀ (cfg : RecoveryCfg) (now : Int) (e : RecoveryEntry) (pr : ProbeResult)
      (us : List RecoveryUpdate),
      attemptRecovery cfg now e pr true true true true = .ok us →
      probeYieldsText pr = false →
      ∃ d, recoveryDeadlineMs cfg now e = some d ∧
        (applyUpdates e us).recoveryExpiresAt = .val d ∧
        (∀ d0, e.recoveryExpiresAt = .val d0 → d = d0) ∧
        (e.recoveryExpiresAt = .missing → ∀ t, e.errorSince = .val t →
          d = t + cfg.recoveryWindowMs) ∧
        ∀ now2 : Int, recoveryDeadlineMs cfg now2 (applyUpdates e us) = some d := by
  intro cfg now e pr us h hn
  obtain ⟨d, hd, hc⟩ := attemptRecovery_ok_cases cfg now e pr us h
  have hparse : ∀ d0, e.recoveryExpiresAt = .val d0 → d = d0 := by
    intro d0 h0
    unfold recoveryDeadlineMs at hd
    rw [h0] at hd
    dsimp [TsField.finiteParse] at hd
    injection hd with hd'
    exact hd'.symm
  have hfresh : e.recoveryExpiresAt = .missing → ∀ t, e.errorSince = .val t →
      d = t + cfg.recoveryWindowMs := by
    intro hmiss t hts
    unfold recoveryDeadlineMs at hd
    rw [hmiss, hts] at hd
    dsimp [TsField.finiteParse] at hd
    injection hd with hd'
    exact hd'.symm
  rcases hc with ⟨hy, rfl⟩ | ⟨hy, hi, rfl⟩ | ⟨hy, hi, rfl⟩
  · rw [hn] at hy
    cases hy
  · have hfin : (applyUpdates e
        [pendingUpdate cfg now e d, inconclusiveUpdate cfg now d]).recoveryExpiresAt
        = .val d := by
      simp [applyUpdates, RecoveryUpdate.applyTo, pendingUpdate,
        inconclusiveUpdate]
    refine ⟨d, hd, hfin, hparse, hfresh, ?_⟩
    intro now2
    unfold recoveryDeadlineMs
    rw [hfin]
    rfl
  · have hfin : (applyUpdates e
        [pendingUpdate cfg now e d, failedUpdate cfg now d]).recoveryExpiresAt
        = .val d := by
      simp [applyUpdates, RecoveryUpdate.applyTo, pendingUpdate, failedUpdate]
    refine ⟨d, hd, hfin, hparse, hfresh, ?_⟩
    intro now2
    unfold recoveryDeadlineMs
    rw [hfin]
    rfl

/-- Witness for C3 on `cexEntry`: the deadline is 0 + 86400000 and the
failed attempt leaves an entry that re-derives exactly it. -/
theorem recovery_deadline_idempotent_witness :
    ∃ d, recoveryDeadlineMs cexCfg 1000 cexEntry = some d ∧
      (applyUpdates cexEntry
          [pendingUpdate cexCfg 1000 cexEntry 86400000,
           failedUpdate cexCfg 1000 86400000]).recoveryExpiresAt = .val d ∧
      (∀ d0, cexEntry.recoveryExpiresAt = .val d0 → d = d0) ∧
      (cexEntry.recoveryExpiresAt = .missing → ∀ t, cexEntry.errorSince = .val t →
        d = t + cexCfg.recoveryWindowMs) ∧
      ∀ now2 : Int,
        recoveryDeadlineMs cexCfg now2
          (applyUpdates cexEntry
            [pendingUpdate cexCfg 1000 cexEntry 86400000,
             failedUpdate cexCfg 1000 86400000]) = some d :=
  recovery_deadline_idempotent cexCfg 1000 cexEntry .fail _ rfl rfl

/-- A response carrying both a top-level `text` field and an `output` block. -/
def c7data : Json :=
  .obj [("text", .str "A"), ("output", .arr [.obj [("text", .str "B")]])]

/-- C7 counterexample: the claimed priority order puts the top-level `text`
field first, so on `c7data` it would return `"A"`; the source scans
`output_text`, `output`, `content` and `choices` before the top-level `text`
(lines 299-358), so it returns `"B"`. -/
theorem extract_priority_counterexample :
    extractResponseText c7data = .ok "B" ∧
    ¬ extractResponseText c7data = .ok "A" := by
  refine ⟨rfl, fun h => ?_⟩
  rw [show extractResponseText c7data = Except.ok "B" from rfl] at h
  injection h with h'
  exact absurd h' (by decide)

/-- C7 as amended: extraction tries the containers in the fixed source
order — `output_text`, output blocks (with nested content), top-level
content blocks, choices, and the top-level `text` field last — returning
the first non-empty trimmed fragment; a response with only a top-level
`text` field is still recognized, an output-block fragment takes precedence
over the top-level `text` field, and a response yielding no fragment is an
inconclusive outcome: the entry is persisted back to error-pending with
`nextRecoveryAt = now + probeIntervalMs` and its deadline kept, not a hard
failure. -/
theorem extract_order_and_inconclusive :
    (∀ s : String, ¬ trimJs s = "" →
      extractResponseText (.obj [("text", .str s)]) = .ok (trimJs s)) ∧
    (∀ s t : String, ¬ trimJs t = "" →
      extractResponseText
          (.obj [("text", .str s), ("output", .arr [.obj [("text", .str t)]])])
        = .ok (trimJs t)) ∧
    (∀ (cfg : RecoveryCfg) (now : Int) (e : RecoveryEntry) (data : Json)
      (us : List RecoveryUpdate),
      probeInconclusive (.ok data) = true →
      attemptRecovery cfg now e (.ok data) true true true true = .ok us →
      ∃ d, recoveryDeadlineMs cfg now e = some d ∧
        us = [pendingUpdate cfg now e d, inconclusiveUpdate cfg now d] ∧
        (applyUpdates e us).status = e.status ∧
        (applyUpdates e us).nextRecoveryAt = .val (now + cfg.probeIntervalMs) ∧
        (applyUpdates e us).recoveryExpiresAt = .val d) := by
  refine ⟨?_, ?_, ?_⟩
  · intro s hs
    simp [extractResponseText, Json.isObjectLike, collectOutputText,
      collectOutput, collectTopContent, collectChoices, collectTopText,
      collectStr, Json.getField, hs]
  · intro s t ht
    by_cases hs : trimJs s = "" <;>
      simp [extractResponseText, Json.isObjectLike, collectOutputText,
        collectOutput, collectTopContent, collectChoices, collectTopText,
        collectOutputItem, collectContentList, collectStr, Json.getField,
        Json.truthy, hs, ht]
  · intro cfg now e data us hi h
    obtain ⟨d, hd, hc⟩ := attemptRecovery_ok_cases cfg now e (.ok data) us h
    rcases hc with ⟨hy, rfl⟩ | ⟨hy, _, rfl⟩ | ⟨_, hi2, rfl⟩
    · exfalso
      unfold probeYieldsText at hy
      unfold probeInconclusive at hi
      dsimp only at hy hi
      rcases hx : extractResponseText data with u | s <;> rw [hx] at hy hi <;>
        dsimp only at hy hi
      · simp at hi
      · simp at hy hi
        omega
    · refine ⟨d, hd, rfl, ?_, ?_, ?_⟩ <;>
        simp [applyUpdates, RecoveryUpdate.applyTo, pendingUpdate,
          inconclusiveUpdate]
    · rw [hi] at hi2
      cases hi2

/-- Witness for the amended C7 at concrete responses and a concrete
inconclusive run. -/
theorem extract_order_and_inconclusive_witness :
    extractResponseText (.obj [("text", .str " A ")]) = .ok (trimJs " A ") ∧
    extractResponseText
        (.obj [("text", .str "A"), ("output", .arr [.obj [("text", .str "B")]])])
      = .ok (trimJs "B") ∧
    ∃ d, recoveryDeadlineMs cexCfg 1000 cexEntry = some d ∧
      [pendingUpdate cexCfg 1000 cexEntry 86400000,
       inconclusiveUpdate cexCfg 1000 86400000]
        = [pendingUpdate cexCfg 1000 cexEntry d, inconclusiveUpdate cexCfg 1000 d] ∧
      (applyUpdates cexEntry
          [pendingUpdate cexCfg 1000 cexEntry 86400000,
           inconclusiveUpdate cexCfg 1000 86400000]).status = cexEntry.status ∧
      (applyUpdates cexEntry
          [pendingUpdate cexCfg 1000 cexEntry 86400000,
           inconclusiveUpdate cexCfg 1000 86400000]).nextRecoveryAt
        = .val (1000 + cexCfg.probeIntervalMs) ∧
      (applyUpdates cexEntry
          [pendingUpdate cexCfg 1000 cexEntry 86400000,
           inconclusiveUpdate cexCfg 1000 86400000]).recoveryExpiresAt = .val d :=
  ⟨extract_order_and_inconclusive.1 " A " (by decide),
   extract_order_and_inconclusive.2.1 "A" "B" (by decide),
   extract_order_and_inconclusive.2.2 cexCfg 1000 cexEntry (.obj []) _
     (by decide) rfl⟩

/-- C6 counterexample: a recovery cycle with two due candidates where the
first candidate's line-125 registry write (`updateApiKeyRecoveryState`)
rejects: the error propagates out of `_attemptRecovery`, the cycle's loop
stops, and the second candidate is never attempted (`invoked = 1` of 2) —
refuting "an error raised while processing one candidate never aborts
processing of the remaining candidates".  The cycle-level catch still
absorbs the error and the guard ends cleared. -/
theorem cycle_abort_counterexample :
    tickRun false
      [(attemptRecovery cexCfg 1000 cexEntry .fail false true true true).map
          (fun _ => ()),
       (attemptRecovery cexCfg 1000 cexEntry .fail true true true true).map
          (fun _ => ())]
      = ⟨true, 1, false⟩ := rfl

/-- C6 as amended: a tick fired under a set guard starts no cycle; a
started cycle always ends with the guard cleared, whatever the body does;
an error of the probe request itself never aborts the remaining candidates —
`_attemptRecovery` resolves normally whenever its persistence calls resolve
(for any probe outcome), and the keepalive per-candidate handler rethrows
only when a remediation call fails — but a failing registry persistence or
remediation call does propagate and abort the cycle's remaining candidates
(see the counterexample). -/
theorem cycle_error_containment :
    (∀ ts : List (Except Unit Unit), tickRun true ts = ⟨false, 0, true⟩) ∧
    (∀ ts : List (Except Unit Unit),
      (tickRun false ts).guardAfter = false ∧
      (tickRun false ts).cycleStarted = true) ∧
    (∀ (cfg : RecoveryCfg) (now : Int) (e : RecoveryEntry) (pr : ProbeResult)
      (d : Int), recoveryDeadlineMs cfg now e = some d →
      ∃ us, attemptRecovery cfg now e pr true true true true = .ok us) ∧
    (∀ ts : List (Except Unit Unit), (∀ r ∈ ts, r = .ok ()) →
      runTargets ts = ts.length) ∧
    (∀ env : HbSendEnv, env.markRateLimitedOk = true →
      env.markOverloadedOk = true →
      (sendHeartbeatForAccount env).threw = false) := by
  refine ⟨fun ts => rfl, fun ts => ⟨rfl, rfl⟩, ?_, ?_, ?_⟩
  · intro cfg now e pr d hd
    unfold attemptRecovery
    rw [hd]
    dsimp only
    rcases pr with data | _
    · dsimp only
      rcases hx : extractResponseText data with u | s
      · exact ⟨_, rfl⟩
      · by_cases hs : 0 < (trimJs s).length
        · exact ⟨_, by dsimp only; rw [if_pos hs]⟩
        · exact ⟨_, by dsimp only; rw [if_neg hs]⟩
    · exact ⟨_, rfl⟩
  · intro ts h
    induction ts with
    | nil => rfl
    | cons r rs ih =>
      rw [h r (List.mem_cons_self r rs)]
      unfold runTargets
      rw [ih (fun x hx => h x (List.mem_cons_of_mem r hx))]
      simp [Nat.add_comm]
  · intro env h1 h2
    unfold sendHeartbeatForAccount
    rcases env.probe with _ | ⟨st, hh⟩ | _ <;> split_ifs <;>
      first | rfl | (dsimp only; split_ifs <;> simp [h1, h2])

/-- Witness for the amended C6 at concrete inputs. -/
theorem cycle_error_containment_witness :
    (∃ us, attemptRecovery cexCfg 1000 cexEntry .fail true true true true
        = .ok us) ∧
    runTargets [Except.ok (), Except.ok ()] = 2 ∧
    (sendHeartbeatForAccount
        ⟨some "tok", true, true, .httpFail 429 none, true, true⟩).threw
      = false :=
  ⟨cycle_error_containment.2.2.1 cexCfg 1000 cexEntry .fail 86400000 rfl,
   cycle_error_containment.2.2.2.1 [Except.ok (), Except.ok ()] (by simp),
   cycle_error_containment.2.2.2.2 _ rfl rfl⟩

theorem guardInv_step {s s' : MonitorState} (h : SysStep s s')
    (hi : GuardInv s) : GuardInv s' := by
  obtain ⟨g0, q1, q2⟩ := s
  obtain ⟨h1, h2, h3⟩ := hi
  cases h with
  | fire1 hp =>
    cases hp <;>
      refine ⟨?_, ?_, ?_⟩ <;> simp_all [GuardInv, TickPhase.isRunning]
  | fire2 hp =>
    cases hp <;>
      refine ⟨?_, ?_, ?_⟩ <;> simp_all [GuardInv, TickPhase.isRunning]

theorem guardInv_reachable : ∀ s : MonitorState, Reachable s → GuardInv s := by
  intro s h
  induction h with
  | refl =>
    exact ⟨by simp [initState, TickPhase.isRunning],
      by simp [initState, TickPhase.isRunning],
      by simp [initState, TickPhase.isRunning]⟩
  | tail _ hstep ih => exact guardInv_step hstep ih

/-- C1: for a monitor's guard protocol, (1) in every execution interleaving
two timer firings from the initial state, the two cycle bodies are never
simultaneously running; (2) a tick firing while the guard is set returns
immediately — the guard is untouched and no cycle body is started (skipped,
not queued); (3) a finishing cycle clears the guard whether or not its body
threw. -/
theorem tick_single_flight :
    (∀ s : MonitorState, Reachable s →
      ¬ (s.p1.isRunning = true ∧ s.p2.isRunning = true)) ∧
    (∀ (g : Bool) (p : TickPhase), PhaseStep true .start g p →
      g = true ∧ p = .done false) ∧
    (∀ (thr g : Bool) (p : TickPhase),
      PhaseStep true (.running 0 thr) g p → g = false ∧ p = .done true) := by
  refine ⟨fun s hs => (guardInv_reachable s hs).2.2, ?_, ?_⟩
  · intro g p h
    cases h
    exact ⟨rfl, rfl⟩
  · intro thr g p h
    cases h
    exact ⟨rfl, rfl⟩

/-- Witness for C1: the state reached by letting firing 1 enter its cycle
and firing 2 skip satisfies mutual exclusion, and the skip / finish
inversions applied at concrete steps. -/
theorem tick_single_flight_witness :
    ¬ (((⟨true, .running 2 true, .done false⟩ : MonitorState).p1.isRunning = true) ∧
       ((⟨true, .running 2 true, .done false⟩ : MonitorState).p2.isRunning = true)) ∧
    (true = true ∧ TickPhase.done false = .done false) ∧
    (false = false ∧ TickPhase.done true = .done true) :=
  ⟨tick_single_flight.1 ⟨true, .running 2 true, .done false⟩
      (Relation.ReflTransGen.tail
        (Relation.ReflTransGen.single (SysStep.fire1 (PhaseStep.enter 2 true)))
        (SysStep.fire2 PhaseStep.skip)),
   tick_single_flight.2.1 true (.done false) PhaseStep.skip,
   tick_single_flight.2.2 true false (.done true) (PhaseStep.finish true)⟩

end Rubii
